import Mathlib

/-!
# Owner/processor scheduling protocol: info provider and protocol topics

A shallow embedding of `cdc/cdc/model/protocol.go` and
`cdc/cdc/scheduler/info_provider.go`.

* A Go `map[K]V` value is a finite map (`GoMap`): it has no order.
* A Go map that the code walks with `range` is a `RangedMap`: the finite map
  together with the order in which the loop visits its entries. Go leaves that
  order unspecified, so it is part of the input of every loop.
* A pointer to a struct is modelled by the struct it points to.
* Timestamps and keyspan IDs are natural numbers; no arithmetic is done on
  them here, so no wrap-around is involved.
-/

/-- A Go map value: finitely many keys, each bound to one value, no order. -/
abbrev GoMap (K V : Type) := Finmap (fun _ : K => V)

/-- A Go map as a `range` loop sees it: the entries, keys pairwise distinct,
in the order of the visit. -/
abbrev RangedMap (K V : Type) := AList (fun _ : K => V)

/-- A non-nil value of the `error` interface: an error with a text, or an error
annotated by `errors.Trace`. The nil error is `none` of `Option GoError`. -/
inductive GoError where
  | msg (text : String)
  | traced (cause : GoError)
  deriving DecidableEq, Repr

namespace fmt

/-- The part of the formatting verbs that the topic functions use, over the
characters of the format: `%s` prints the next string operand as it is, `%%`
prints a percent sign, any other character is copied. A `%s` with no operand
left prints `%!s(MISSING)`. Surplus operands are not reported: every call in
the sources has one verb and one operand. -/
def sprintfChars : List Char → List String → List Char
  | '%' :: 's' :: rest, a :: args => a.data ++ sprintfChars rest args
  | '%' :: 's' :: rest, [] => "%!s(MISSING)".data ++ sprintfChars rest []
  | '%' :: '%' :: rest, args => '%' :: sprintfChars rest args
  | c :: rest, args => c :: sprintfChars rest args
  | [], _ => []

/-- The call `fmt.Sprintf(format, args...)` with string operands. -/
def Sprintf (format : String) (args : List String) : String :=
  ⟨sprintfChars format.data args⟩

end fmt

namespace model

/-- Modelled from the spec: the declaration of `ChangeFeedID` is not among the
sources; it is an "opaque string identifier". -/
abbrev ChangeFeedID := String

/-- Modelled from the spec: the declaration of `CaptureID` is not among the
sources; it is an "opaque string identifier". -/
abbrev CaptureID := String

/-- Modelled from the spec: the declaration of `KeySpanID` is not among the
sources; it is an "opaque identifier (integer or string)", taken here as an
unsigned integer. -/
abbrev KeySpanID := Nat

/-- Modelled from the spec: the declaration of `Ts` is not among the sources;
it is a "monotonically comparable timestamp", taken here as an unsigned
integer. -/
abbrev Ts := Nat

/-- A message topic of the peer-to-peer layer (`p2p.Topic`): the string that
`fmt.Sprintf` returns. -/
abbrev Topic := String

/-- DispatchKeySpanTopic returns a message topic for dispatching a keyspan. -/
def DispatchKeySpanTopic (changefeedID : ChangeFeedID) : Topic :=
  fmt.Sprintf "dispatch/%s" [changefeedID]

/-- DispatchKeySpanResponseTopic returns a message topic for the result of
dispatching a keyspan. -/
def DispatchKeySpanResponseTopic (changefeedID : ChangeFeedID) : Topic :=
  fmt.Sprintf "dispatch-resp/%s" [changefeedID]

/-- AnnounceTopic returns a message topic for announcing an ownership change. -/
def AnnounceTopic (changefeedID : ChangeFeedID) : Topic :=
  fmt.Sprintf "send-status/%s" [changefeedID]

/-- SyncTopic returns a message topic for syncing the current states of a
processor. -/
def SyncTopic (changefeedID : ChangeFeedID) : Topic :=
  fmt.Sprintf "send-status-resp/%s" [changefeedID]

/-- CheckpointTopic returns a topic for sending the latest checkpoint from the
Processor to the Owner. -/
def CheckpointTopic (changefeedID : ChangeFeedID) : Topic :=
  fmt.Sprintf "checkpoint/%s" [changefeedID]

/-- DispatchKeySpanMessage is the message body for dispatching a keyspan. -/
structure DispatchKeySpanMessage where
  OwnerRev : Int
  ID : KeySpanID
  IsDelete : Bool
  Start : List UInt8
  End : List UInt8
  deriving DecidableEq, Repr

/-- A field value of a message in its tagged text (JSON) form: a number, a
boolean, or a byte string. -/
inductive FieldValue where
  | number (n : Int)
  | boolean (b : Bool)
  | bytes (bs : List UInt8)
  deriving DecidableEq, Repr

/-- The fields of `DispatchKeySpanMessage` in declaration order: the Go field
name paired with the name given by its `json:"..."` struct tag. -/
def DispatchKeySpanMessage.fieldTags : List (String × String) :=
  [("OwnerRev", "owner-rev"), ("ID", "id"), ("IsDelete", "is-delete"),
   ("Start", "start"), ("End", "end")]

/-- The field values of a dispatch message in declaration order. -/
def DispatchKeySpanMessage.fieldValues (m : DispatchKeySpanMessage) : List FieldValue :=
  [.number m.OwnerRev, .number m.ID, .boolean m.IsDelete, .bytes m.Start, .bytes m.End]

/-- The tagged text form of a dispatch message: one member per struct field,
in declaration order, named by the field's `json` struct tag. -/
def DispatchKeySpanMessage.members (m : DispatchKeySpanMessage) :
    List (String × FieldValue) :=
  (DispatchKeySpanMessage.fieldTags.map Prod.snd).zip m.fieldValues

/-- The member names of the tagged text form of a dispatch message. -/
def DispatchKeySpanMessage.memberNames (m : DispatchKeySpanMessage) : List String :=
  m.members.map Prod.fst

/-- SyncMessage is the message body for syncing the current states of a
processor. -/
structure SyncMessage where
  ProcessorVersion : String
  Running : List KeySpanID
  Adding : List KeySpanID
  Removing : List KeySpanID
  deriving DecidableEq, Repr

/-- The MsgPack library, which is outside the repository: its encoder, and its
decoder into a receiver, which gives the receiver after the call and the
error. -/
structure MsgPack where
  Marshal : SyncMessage → Except GoError (List UInt8)
  Unmarshal : List UInt8 → SyncMessage → SyncMessage × Option GoError

/-- The call `errors.Trace(err)` on a non-nil error: the error, annotated. -/
def errorsTrace (err : GoError) : GoError :=
  .traced err

/-- Marshal serializes the message into MsgPack format. The result is the
returned bytes (`none` is the nil slice) and the returned error. -/
def SyncMessage.Marshal (msgpack : MsgPack) (m : SyncMessage) :
    Option (List UInt8) × Option GoError :=
  match msgpack.Marshal m with
  | .error err => (none, some (errorsTrace err))
  | .ok raw => (some raw, none)

/-- Unmarshal deserializes the message. The result is the receiver after the
call and the returned error. -/
def SyncMessage.Unmarshal (msgpack : MsgPack) (m : SyncMessage) (data : List UInt8) :
    SyncMessage × Option GoError :=
  msgpack.Unmarshal data m

/-- CheckpointMessage is the message body for sending the latest checkpoint
from the Processor to the Owner. -/
structure CheckpointMessage where
  CheckpointTs : Ts
  ResolvedTs : Ts
  deriving DecidableEq, Repr

/-- KeySpanReplicaInfo as the info provider fills it: the start timestamp. -/
structure KeySpanReplicaInfo where
  StartTs : Ts
  deriving DecidableEq, Repr

/-- Modelled from the spec: the operation status constants of package `model`
are not among the sources; the info provider names `OperDispatched` only ("any
in-flight operation (add/remove) currently dispatched but not yet
acknowledged"). Every other value of the status field is `other`. -/
inductive OperStatus where
  | OperDispatched
  | other (code : Nat)
  deriving DecidableEq, Repr

/-- KeySpanOperation as the info provider fills it. -/
structure KeySpanOperation where
  Delete : Bool
  Status : OperStatus
  BoundaryTs : Ts
  deriving DecidableEq, Repr

/-- TaskStatus: the keyspans of one capture and its operations in flight. -/
structure TaskStatus where
  KeySpans : GoMap KeySpanID KeySpanReplicaInfo
  Operation : GoMap KeySpanID KeySpanOperation
  deriving DecidableEq

/-- TaskPosition as the info provider fills it. -/
structure TaskPosition where
  CheckPointTs : Ts
  ResolvedTs : Ts
  deriving DecidableEq, Repr

end model

namespace util

/-- The status of a keyspan on a capture. The three named constants are the
ones the info provider switches on; `other` stands for any value of the
underlying type that is none of them (the switch has no default branch). -/
inductive KeySpanStatus where
  | AddingKeySpan
  | RemovingKeySpan
  | RunningKeySpan
  | other (code : Nat)
  deriving DecidableEq, Repr

/-- A record of the assignment table; the info provider reads its status. -/
structure KeySpanRecord where
  Status : KeySpanStatus
  deriving DecidableEq, Repr

/-- Modelled from the spec: the assignment table `util.KeySpanSet` is not
among the sources. It is taken as what `groupByCapture()` gives: "for each
capture, the set of keyspans it is responsible for with their status". -/
structure KeySpanSet where
  byCapture : RangedMap model.CaptureID (RangedMap model.KeySpanID KeySpanRecord)

/-- GetAllKeySpansGroupedByCaptures returns the records of the table grouped
by capture. -/
def KeySpanSet.GetAllKeySpansGroupedByCaptures (s : KeySpanSet) :
    RangedMap model.CaptureID (RangedMap model.KeySpanID KeySpanRecord) :=
  s.byCapture

end util

namespace scheduler

open model util

/-- Modelled from the spec: the capture status record of the dispatcher is not
among the sources: "Capture Status: {CheckpointTs, ResolvedTs,
ProcessorVersion}, last reported watermark + version for one capture". These
are its fields; the invariant that the spec attaches to it is
`CaptureStatus.Valid`, and the scheduler states of the data model, in which
every stored record satisfies it, are `SchedulerState`. -/
structure CaptureStatus where
  CheckpointTs : Ts
  ResolvedTs : Ts
  ProcessorVersion : String
  deriving DecidableEq, Repr

/-- The state of the dispatcher that the info provider touches: the mutex
(`true` when held), the assignment table and the capture-status table. -/
structure BaseScheduleDispatcher where
  mu : Bool
  keyspans : KeySpanSet
  captureStatus : RangedMap CaptureID CaptureStatus

/-- The call `s.mu.Lock()`, once the mutex has been acquired. -/
def BaseScheduleDispatcher.Lock (s : BaseScheduleDispatcher) : BaseScheduleDispatcher :=
  { s with mu := true }

/-- The call `s.mu.Unlock()`. -/
def BaseScheduleDispatcher.Unlock (s : BaseScheduleDispatcher) : BaseScheduleDispatcher :=
  { s with mu := false }

/-- One iteration of the inner loop of `GetTaskStatuses`, on the task status
that `ret[captureID]` points to. -/
def GetTaskStatuses.visitKeySpan (status : TaskStatus) (keyspanID : KeySpanID)
    (record : KeySpanRecord) : TaskStatus :=
  let status := { status with KeySpans := status.KeySpans.insert keyspanID { StartTs := 0 } }
  match record.Status with
  | .RunningKeySpan => status
  | .AddingKeySpan =>
    { status with
      Operation := status.Operation.insert keyspanID
        { Delete := false, Status := .OperDispatched, BoundaryTs := 0 } }
  | .RemovingKeySpan =>
    { status with
      Operation := status.Operation.insert keyspanID
        { Delete := true, Status := .OperDispatched, BoundaryTs := 0 } }
  | .other _ => status

/-- One iteration of the outer loop of `GetTaskStatuses`: a task status with
two empty maps is allocated and stored under the capture, and the inner loop
writes through that pointer, so the entry ends as the allocated struct after
all the inner writes. -/
def GetTaskStatuses.visitCapture (ret : GoMap CaptureID TaskStatus) (captureID : CaptureID)
    (keyspans : RangedMap KeySpanID KeySpanRecord) : GoMap CaptureID TaskStatus :=
  ret.insert captureID
    (keyspans.entries.foldl (fun status e => GetTaskStatuses.visitKeySpan status e.1 e.2)
      { KeySpans := ∅, Operation := ∅ })

/-- GetTaskStatuses implements InfoProvider for BaseScheduleDispatcher. The
result is the returned map, the returned error, and the dispatcher after the
call. -/
def BaseScheduleDispatcher.GetTaskStatuses (s : BaseScheduleDispatcher) :
    (GoMap CaptureID TaskStatus × Option GoError) × BaseScheduleDispatcher :=
  let s := s.Lock
  let keyspansPerCapture := s.keyspans.GetAllKeySpansGroupedByCaptures
  let ret := keyspansPerCapture.entries.foldl
    (fun ret e => GetTaskStatuses.visitCapture ret e.1 e.2) ∅
  ((ret, none), s.Unlock)

/-- GetTaskPositions implements InfoProvider for BaseScheduleDispatcher. -/
def BaseScheduleDispatcher.GetTaskPositions (s : BaseScheduleDispatcher) :
    (GoMap CaptureID TaskPosition × Option GoError) × BaseScheduleDispatcher :=
  let s := s.Lock
  let ret := s.captureStatus.entries.foldl
    (fun ret e => ret.insert e.1
      { CheckPointTs := e.2.CheckpointTs, ResolvedTs := e.2.ResolvedTs }) ∅
  ((ret, none), s.Unlock)

/-- Modelled from the spec: the invariant of a capture status. The code that
writes the capture-status table is not among the sources; the spec says "For
every capture, CheckpointTs ≤ ResolvedTs always holds", and that a report with
ResolvedTs below CheckpointTs is "rejected as malformed input". -/
def CaptureStatus.Valid (st : CaptureStatus) : Prop :=
  st.CheckpointTs ≤ st.ResolvedTs

instance (st : CaptureStatus) : Decidable st.Valid :=
  inferInstanceAs (Decidable (st.CheckpointTs ≤ st.ResolvedTs))

/-- Modelled from the spec: a scheduler state of the data model, which the
absent writers of the tables maintain: a dispatcher in whose capture-status
table every stored capture status satisfies the watermark invariant. -/
structure SchedulerState where
  dispatcher : BaseScheduleDispatcher
  watermarks : ∀ e ∈ dispatcher.captureStatus.entries, e.2.Valid

end scheduler

/-! ## Example states -/

namespace model

/-- A dispatch message: owner revision 3 adds keyspan 42 with boundaries `a`
and `b`. -/
def exampleDispatch : DispatchKeySpanMessage :=
  { OwnerRev := 3, ID := 42, IsDelete := false, Start := [97], End := [98] }

/-- A stand-in for the MsgPack library, to evaluate the wrappers on: its
encoder fails on a message with an empty processor version and otherwise gives
one byte per running keyspan; its decoder fails on empty data, leaving the
receiver as it is, and otherwise sets the processor version of the receiver. -/
def exampleCodec : MsgPack :=
  { Marshal := fun m =>
      if m.ProcessorVersion = "" then .error (.msg "no version")
      else .ok (m.Running.map fun _ => 1)
    Unmarshal := fun data m =>
      if data = [] then (m, some (.msg "EOF"))
      else ({ m with ProcessorVersion := "v1" }, none) }

/-- A sync message of processor version `v1` with two running keyspans. -/
def exampleSync : SyncMessage :=
  { ProcessorVersion := "v1", Running := [1, 5], Adding := [9], Removing := [] }

/-- The zero value of `SyncMessage`. -/
def zeroSync : SyncMessage :=
  { ProcessorVersion := "", Running := [], Adding := [], Removing := [] }

end model

namespace scheduler

open model util

/-- Keyspan 1 running and keyspan 2 being added. -/
def exampleKeySpans1 : RangedMap KeySpanID KeySpanRecord :=
  AList.insert 1 { Status := .RunningKeySpan } (AList.insert 2 { Status := .AddingKeySpan } ∅)

/-- Keyspan 3 being removed. -/
def exampleKeySpans2 : RangedMap KeySpanID KeySpanRecord :=
  AList.insert 3 { Status := .RemovingKeySpan } ∅

/-- A table with capture `capture-1` running keyspan 1 and adding keyspan 2,
and capture `capture-2` removing keyspan 3. -/
def exampleKeySpans : KeySpanSet :=
  { byCapture :=
      AList.insert "capture-1" exampleKeySpans1 (AList.insert "capture-2" exampleKeySpans2 ∅) }

/-- A dispatcher over `exampleKeySpans` whose two captures have reported
watermarks. -/
def exampleDispatcher : BaseScheduleDispatcher :=
  { mu := false
    keyspans := exampleKeySpans
    captureStatus :=
      AList.insert "capture-1" { CheckpointTs := 80, ResolvedTs := 100, ProcessorVersion := "v1" }
        (AList.insert "capture-2"
          { CheckpointTs := 100, ResolvedTs := 120, ProcessorVersion := "v1" } ∅) }

/-- The example dispatcher as a scheduler state of the data model: both of its
captures are stored with a checkpoint at most the resolved timestamp. -/
def exampleState : SchedulerState :=
  { dispatcher := exampleDispatcher, watermarks := by decide }

/-- The task status of a capture that is removing keyspan 3 and holds nothing
else. -/
def exampleStatus2 : TaskStatus :=
  { KeySpans := Finmap.singleton 3 { StartTs := 0 }
    Operation := Finmap.singleton 3
      { Delete := true, Status := .OperDispatched, BoundaryTs := 0 } }

/-- A dispatcher whose two tables are empty. -/
def emptyDispatcher : BaseScheduleDispatcher :=
  { mu := false, keyspans := { byCapture := ∅ }, captureStatus := ∅ }

/-- A dispatcher whose table lists capture `capture-1` with no keyspan. -/
def idleDispatcher : BaseScheduleDispatcher :=
  { mu := false
    keyspans := { byCapture := AList.insert "capture-1" ∅ ∅ }
    captureStatus := ∅ }

/-- The tables of `exampleDispatcher` visited in another order: `capture-2`
before `capture-1`, keyspan 2 before keyspan 1, and the mutex held. -/
def exampleDispatcherReordered : BaseScheduleDispatcher :=
  { mu := true
    keyspans :=
      { byCapture :=
          AList.insert "capture-2" exampleKeySpans2
            (AList.insert "capture-1"
              (AList.insert 2 { Status := .AddingKeySpan }
                (AList.insert 1 { Status := .RunningKeySpan } ∅)) ∅) }
    captureStatus :=
      AList.insert "capture-2" { CheckpointTs := 100, ResolvedTs := 120, ProcessorVersion := "v1" }
        (AList.insert "capture-1"
          { CheckpointTs := 80, ResolvedTs := 100, ProcessorVersion := "v1" } ∅) }

/-- Two visits of one capture-status table: the same entries, in any two
orders. -/
def SameCaptureStatus (t1 t2 : RangedMap CaptureID CaptureStatus) : Prop :=
  t1.entries.Perm t2.entries

/-- Two visits of one assignment table grouped by capture: the same captures,
in any two orders, and for each capture the same keyspan records, in any two
orders. -/
def SameGrouping (t1 t2 : RangedMap CaptureID (RangedMap KeySpanID KeySpanRecord)) : Prop :=
  t1.keys.Perm t2.keys ∧
  ∀ c ∈ t1.keys, ∀ ks1 ∈ t1.lookup c, ∀ ks2 ∈ t2.lookup c, ks1.entries.Perm ks2.entries

instance (t1 t2 : RangedMap CaptureID CaptureStatus) : Decidable (SameCaptureStatus t1 t2) :=
  inferInstanceAs (Decidable (t1.entries.Perm t2.entries))

instance (t1 t2 : RangedMap CaptureID (RangedMap KeySpanID KeySpanRecord)) :
    Decidable (SameGrouping t1 t2) :=
  inferInstanceAs (Decidable (t1.keys.Perm t2.keys ∧
    ∀ c ∈ t1.keys, ∀ ks1 ∈ t1.lookup c, ∀ ks2 ∈ t2.lookup c, ks1.entries.Perm ks2.entries))

end scheduler

/-! ## Lemmas on the loops -/

namespace scheduler

open model util

/-- The operation that the inner loop records for a keyspan of the given
status, if any. -/
def GetTaskStatuses.operationOf : KeySpanStatus → Option KeySpanOperation
  | .AddingKeySpan => some { Delete := false, Status := .OperDispatched, BoundaryTs := 0 }
  | .RemovingKeySpan => some { Delete := true, Status := .OperDispatched, BoundaryTs := 0 }
  | .RunningKeySpan => none
  | .other _ => none

/-- The task status that the outer loop stores for a capture with the given
keyspans. -/
def GetTaskStatuses.statusOf (keyspans : RangedMap KeySpanID KeySpanRecord) : TaskStatus :=
  keyspans.entries.foldl (fun status e => GetTaskStatuses.visitKeySpan status e.1 e.2)
    { KeySpans := ∅, Operation := ∅ }

theorem visitKeySpan_KeySpans (status : TaskStatus) (k : KeySpanID) (r : KeySpanRecord) :
    (GetTaskStatuses.visitKeySpan status k r).KeySpans
      = status.KeySpans.insert k { StartTs := 0 } := by
  unfold GetTaskStatuses.visitKeySpan
  cases r.Status <;> rfl

theorem visitKeySpan_Operation (status : TaskStatus) (k : KeySpanID) (r : KeySpanRecord) :
    (GetTaskStatuses.visitKeySpan status k r).Operation
      = match GetTaskStatuses.operationOf r.Status with
        | some op => status.Operation.insert k op
        | none => status.Operation := by
  unfold GetTaskStatuses.visitKeySpan
  cases r.Status <;> rfl

theorem foldl_visitKeySpan_KeySpans_lookup
    (l : List (Sigma fun _ : KeySpanID => KeySpanRecord)) (status : TaskStatus) (k : KeySpanID) :
    (l.foldl (fun status e => GetTaskStatuses.visitKeySpan status e.1 e.2) status).KeySpans.lookup k
      = match l.dlookup k with
        | some _ => some { StartTs := 0 }
        | none => status.KeySpans.lookup k := by
  induction l generalizing status with
  | nil => simp
  | cons e l ih =>
    obtain ⟨a, r⟩ := e
    rw [List.foldl_cons, ih]
    by_cases hk : k = a
    · subst hk
      simp only [List.dlookup_cons_eq, visitKeySpan_KeySpans, Finmap.lookup_insert]
      cases List.dlookup k l <;> rfl
    · rw [List.dlookup_cons_ne l ⟨a, r⟩ hk, visitKeySpan_KeySpans,
        Finmap.lookup_insert_of_ne _ hk]

theorem foldl_visitKeySpan_Operation_lookup
    (l : List (Sigma fun _ : KeySpanID => KeySpanRecord)) (hl : l.NodupKeys)
    (status : TaskStatus) (k : KeySpanID) :
    (l.foldl (fun status e => GetTaskStatuses.visitKeySpan status e.1 e.2) status).Operation.lookup k
      = match (l.dlookup k).bind (fun r => GetTaskStatuses.operationOf r.Status) with
        | some op => some op
        | none => status.Operation.lookup k := by
  induction l generalizing status with
  | nil => simp
  | cons e l ih =>
    obtain ⟨a, r⟩ := e
    rw [List.nodupKeys_cons] at hl
    rw [List.foldl_cons, ih hl.2]
    by_cases hk : k = a
    · subst hk
      have hnone : List.dlookup k l = none := List.dlookup_eq_none.mpr hl.1
      simp only [List.dlookup_cons_eq, hnone, Option.none_bind, Option.some_bind,
        visitKeySpan_Operation]
      cases GetTaskStatuses.operationOf r.Status with
      | none => rfl
      | some op => simp [Finmap.lookup_insert]
    · rw [List.dlookup_cons_ne l ⟨a, r⟩ hk, visitKeySpan_Operation]
      cases GetTaskStatuses.operationOf r.Status with
      | none => rfl
      | some op => simp only [Finmap.lookup_insert_of_ne _ hk]

theorem statusOf_KeySpans_lookup (keyspans : RangedMap KeySpanID KeySpanRecord) (k : KeySpanID) :
    (GetTaskStatuses.statusOf keyspans).KeySpans.lookup k
      = (keyspans.lookup k).map (fun _ => { StartTs := 0 }) := by
  unfold GetTaskStatuses.statusOf
  rw [foldl_visitKeySpan_KeySpans_lookup]
  unfold AList.lookup
  cases List.dlookup k keyspans.entries <;> simp

theorem statusOf_Operation_lookup (keyspans : RangedMap KeySpanID KeySpanRecord) (k : KeySpanID) :
    (GetTaskStatuses.statusOf keyspans).Operation.lookup k
      = (keyspans.lookup k).bind (fun r => GetTaskStatuses.operationOf r.Status) := by
  unfold GetTaskStatuses.statusOf
  rw [foldl_visitKeySpan_Operation_lookup _ keyspans.nodupKeys]
  unfold AList.lookup
  cases (List.dlookup k keyspans.entries).bind
    (fun r => GetTaskStatuses.operationOf r.Status) <;> simp

/-- A loop that stores `f k v` under each visited key `k` leaves a map whose
lookup is the lookup of the visited map, mapped through `f`. -/
theorem lookup_foldl_insert {K V W : Type} [DecidableEq K] (f : K → V → W)
    (l : List (Sigma fun _ : K => V)) (hl : l.NodupKeys) (init : GoMap K W) (c : K) :
    (l.foldl (fun ret e => ret.insert e.1 (f e.1 e.2)) init).lookup c
      = match l.dlookup c with
        | some v => some (f c v)
        | none => init.lookup c := by
  induction l generalizing init with
  | nil => simp
  | cons e l ih =>
    obtain ⟨a, b⟩ := e
    rw [List.nodupKeys_cons] at hl
    rw [List.foldl_cons, ih hl.2]
    by_cases hc : c = a
    · subst hc
      have hnone : List.dlookup c l = none := List.dlookup_eq_none.mpr hl.1
      simp [hnone, Finmap.lookup_insert]
    · rw [List.dlookup_cons_ne l ⟨a, b⟩ hc, Finmap.lookup_insert_of_ne _ hc]

theorem GetTaskStatuses_lookup (s : BaseScheduleDispatcher) (c : CaptureID) :
    s.GetTaskStatuses.1.1.lookup c
      = (s.keyspans.GetAllKeySpansGroupedByCaptures.lookup c).map GetTaskStatuses.statusOf := by
  unfold BaseScheduleDispatcher.GetTaskStatuses
  simp only [BaseScheduleDispatcher.Lock, GetTaskStatuses.visitCapture]
  have h := lookup_foldl_insert (fun _ keyspans => GetTaskStatuses.statusOf keyspans)
    s.keyspans.GetAllKeySpansGroupedByCaptures.entries
    s.keyspans.GetAllKeySpansGroupedByCaptures.nodupKeys ∅ c
  unfold GetTaskStatuses.statusOf at h
  rw [h]
  unfold AList.lookup GetTaskStatuses.statusOf
  cases List.dlookup c s.keyspans.GetAllKeySpansGroupedByCaptures.entries <;> simp

theorem GetTaskPositions_lookup (s : BaseScheduleDispatcher) (c : CaptureID) :
    s.GetTaskPositions.1.1.lookup c
      = (s.captureStatus.lookup c).map
          (fun st => { CheckPointTs := st.CheckpointTs, ResolvedTs := st.ResolvedTs }) := by
  unfold BaseScheduleDispatcher.GetTaskPositions
  simp only [BaseScheduleDispatcher.Lock]
  rw [lookup_foldl_insert (fun _ (st : CaptureStatus) =>
    ({ CheckPointTs := st.CheckpointTs, ResolvedTs := st.ResolvedTs } : TaskPosition))
    s.captureStatus.entries s.captureStatus.nodupKeys ∅ c]
  unfold AList.lookup
  cases List.dlookup c s.captureStatus.entries <;> simp

/-- Two finite maps with `isSome`-equivalent lookups against a ranged map have
the same keys. -/
theorem keys_eq_of_lookup {K V W : Type} [DecidableEq K] (m : GoMap K W) (t : RangedMap K V)
    (h : ∀ k, (m.lookup k).isSome = (t.lookup k).isSome) : m.keys = t.keys.toFinset := by
  ext k
  rw [Finmap.mem_keys, List.mem_toFinset, ← AList.mem_keys, ← Finmap.lookup_isSome,
    ← AList.lookup_isSome, h k]

end scheduler

/-! ## The info provider -/

namespace scheduler

open model util

/-- C1: for every scheduler state, the capture IDs of the map returned by
GetTaskStatuses are the capture IDs of the assignment table grouped by capture,
and for each such capture the keys of the returned KeySpans map are the keyspan
IDs that the table records for it, whatever their status. -/
theorem GetTaskStatuses_key_sets (s : BaseScheduleDispatcher) :
    s.GetTaskStatuses.1.1.keys = s.keyspans.GetAllKeySpansGroupedByCaptures.keys.toFinset ∧
    ∀ (c : CaptureID) (keyspans : RangedMap KeySpanID KeySpanRecord),
      s.keyspans.GetAllKeySpansGroupedByCaptures.lookup c = some keyspans →
      ∃ status, s.GetTaskStatuses.1.1.lookup c = some status ∧
        status.KeySpans.keys = keyspans.keys.toFinset := by
  refine ⟨?_, ?_⟩
  · apply keys_eq_of_lookup
    intro c
    rw [GetTaskStatuses_lookup, Option.isSome_map']
  · intro c keyspans hc
    refine ⟨GetTaskStatuses.statusOf keyspans, ?_, ?_⟩
    · rw [GetTaskStatuses_lookup, hc]; rfl
    · apply keys_eq_of_lookup
      intro k
      rw [statusOf_KeySpans_lookup, Option.isSome_map']

/-- Witness of C1 on the example dispatcher: capture `capture-1`, which has a
running keyspan and one being added. -/
theorem GetTaskStatuses_key_sets_witness :
    exampleDispatcher.keyspans.GetAllKeySpansGroupedByCaptures.lookup "capture-1"
      = some exampleKeySpans1 ∧
    ∃ status, exampleDispatcher.GetTaskStatuses.1.1.lookup "capture-1" = some status ∧
      status.KeySpans.keys = exampleKeySpans1.keys.toFinset :=
  ⟨rfl, (GetTaskStatuses_key_sets exampleDispatcher).2 "capture-1" exampleKeySpans1 rfl⟩

/-- C2: for every scheduler state, capture c and keyspan k that the assignment
table records for c, the Operation map returned for c has an entry for k if and
only if the status of k on c is Adding or Removing; a Running keyspan has no
Operation entry. -/
theorem GetTaskStatuses_operation_iff (s : BaseScheduleDispatcher) (c : CaptureID)
    (keyspans : RangedMap KeySpanID KeySpanRecord) (k : KeySpanID) (record : KeySpanRecord)
    (hc : s.keyspans.GetAllKeySpansGroupedByCaptures.lookup c = some keyspans)
    (hk : keyspans.lookup k = some record) :
    ∃ status, s.GetTaskStatuses.1.1.lookup c = some status ∧
      (k ∈ status.Operation ↔
        record.Status = .AddingKeySpan ∨ record.Status = .RemovingKeySpan) ∧
      (record.Status = .RunningKeySpan → k ∉ status.Operation) := by
  refine ⟨GetTaskStatuses.statusOf keyspans, ?_, ?_, ?_⟩
  · rw [GetTaskStatuses_lookup, hc]; rfl
  · rw [← Finmap.lookup_isSome, statusOf_Operation_lookup, hk, Option.some_bind]
    cases hst : record.Status <;> simp [GetTaskStatuses.operationOf]
  · intro hr
    rw [← Finmap.lookup_isSome, statusOf_Operation_lookup, hk, Option.some_bind, hr]
    simp [GetTaskStatuses.operationOf]

/-- Witness of C2 on the example dispatcher: keyspan 2, being added on
`capture-1`. -/
theorem GetTaskStatuses_operation_iff_witness :
    exampleDispatcher.keyspans.GetAllKeySpansGroupedByCaptures.lookup "capture-1"
      = some exampleKeySpans1 ∧
    exampleKeySpans1.lookup 2 = some { Status := .AddingKeySpan } ∧
    ∃ status, exampleDispatcher.GetTaskStatuses.1.1.lookup "capture-1" = some status ∧
      (2 ∈ status.Operation ↔
        KeySpanStatus.AddingKeySpan = .AddingKeySpan ∨
        KeySpanStatus.AddingKeySpan = .RemovingKeySpan) ∧
      (KeySpanStatus.AddingKeySpan = .RunningKeySpan → 2 ∉ status.Operation) :=
  ⟨rfl, by decide,
   GetTaskStatuses_operation_iff exampleDispatcher "capture-1" exampleKeySpans1 2
     { Status := .AddingKeySpan } rfl (by decide)⟩

/-- C3: every Operation entry returned by GetTaskStatuses for capture c and
keyspan k has Status OperDispatched; the table records k on c, and the Delete
flag of the entry is true exactly when that status is Removing and false
exactly when it is Adding. -/
theorem GetTaskStatuses_operation_entry (s : BaseScheduleDispatcher) (c : CaptureID)
    (status : TaskStatus) (k : KeySpanID) (op : KeySpanOperation)
    (hc : s.GetTaskStatuses.1.1.lookup c = some status)
    (hk : status.Operation.lookup k = some op) :
    op.Status = .OperDispatched ∧
    ∃ keyspans record,
      s.keyspans.GetAllKeySpansGroupedByCaptures.lookup c = some keyspans ∧
      keyspans.lookup k = some record ∧
      (op.Delete = true ↔ record.Status = .RemovingKeySpan) ∧
      (op.Delete = false ↔ record.Status = .AddingKeySpan) := by
  rw [GetTaskStatuses_lookup] at hc
  cases hg : s.keyspans.GetAllKeySpansGroupedByCaptures.lookup c with
  | none => rw [hg] at hc; cases hc
  | some keyspans =>
    rw [hg] at hc
    simp only [Option.map_some', Option.some.injEq] at hc
    subst hc
    rw [statusOf_Operation_lookup] at hk
    cases hr : keyspans.lookup k with
    | none => rw [hr] at hk; cases hk
    | some record =>
      rw [hr] at hk
      simp only [Option.some_bind] at hk
      have key : op.Status = .OperDispatched ∧
          (op.Delete = true ↔ record.Status = .RemovingKeySpan) ∧
          (op.Delete = false ↔ record.Status = .AddingKeySpan) := by
        cases hst : record.Status <;> rw [hst] at hk <;>
          simp [GetTaskStatuses.operationOf] at hk <;> subst hk <;> simp
      exact ⟨key.1, keyspans, record, rfl, hr, key.2⟩

/-- Witness of C3 on the example dispatcher: the Operation entry of keyspan 3
on `capture-2`, where it is being removed. -/
theorem GetTaskStatuses_operation_entry_witness :
    exampleDispatcher.GetTaskStatuses.1.1.lookup "capture-2" = some exampleStatus2 ∧
    exampleStatus2.Operation.lookup 3
      = some { Delete := true, Status := .OperDispatched, BoundaryTs := 0 } ∧
    OperStatus.OperDispatched = .OperDispatched ∧
    ∃ keyspans record,
      exampleDispatcher.keyspans.GetAllKeySpansGroupedByCaptures.lookup "capture-2"
        = some keyspans ∧
      keyspans.lookup 3 = some record ∧
      (true = true ↔ record.Status = .RemovingKeySpan) ∧
      (true = false ↔ record.Status = .AddingKeySpan) :=
  ⟨rfl, rfl,
   GetTaskStatuses_operation_entry exampleDispatcher "capture-2" exampleStatus2 3
     { Delete := true, Status := .OperDispatched, BoundaryTs := 0 } rfl rfl⟩

/-- C4: for every scheduler state, every KeySpanReplicaInfo returned by
GetTaskStatuses has StartTs 0 and every KeySpanOperation returned has
BoundaryTs 0; and the entries are present with those zero values: every keyspan
the table records for a capture has its KeySpans entry with StartTs 0, and when
its status is Adding or Removing its Operation entry with BoundaryTs 0. -/
theorem GetTaskStatuses_zero_fields (s : BaseScheduleDispatcher) :
    (∀ (c : CaptureID) (status : TaskStatus), s.GetTaskStatuses.1.1.lookup c = some status →
      (∀ k info, status.KeySpans.lookup k = some info → info.StartTs = 0) ∧
      (∀ k op, status.Operation.lookup k = some op → op.BoundaryTs = 0)) ∧
    (∀ (c : CaptureID) (keyspans : RangedMap KeySpanID KeySpanRecord) (k : KeySpanID)
        (record : KeySpanRecord),
      s.keyspans.GetAllKeySpansGroupedByCaptures.lookup c = some keyspans →
      keyspans.lookup k = some record →
      ∃ status, s.GetTaskStatuses.1.1.lookup c = some status ∧
        status.KeySpans.lookup k = some { StartTs := 0 } ∧
        (record.Status = .AddingKeySpan ∨ record.Status = .RemovingKeySpan →
          ∃ op, status.Operation.lookup k = some op ∧ op.BoundaryTs = 0)) := by
  refine ⟨?_, ?_⟩
  · intro c status hc
    rw [GetTaskStatuses_lookup] at hc
    cases hg : s.keyspans.GetAllKeySpansGroupedByCaptures.lookup c with
    | none => rw [hg] at hc; cases hc
    | some keyspans =>
      rw [hg] at hc
      simp only [Option.map_some', Option.some.injEq] at hc
      subst hc
      refine ⟨?_, ?_⟩
      · intro k info hk
        rw [statusOf_KeySpans_lookup] at hk
        cases hr : keyspans.lookup k with
        | none => rw [hr] at hk; cases hk
        | some record =>
          rw [hr] at hk
          simp only [Option.map_some', Option.some.injEq] at hk
          rw [← hk]
      · intro k op hk
        rw [statusOf_Operation_lookup] at hk
        cases hr : keyspans.lookup k with
        | none => rw [hr] at hk; cases hk
        | some record =>
          rw [hr] at hk
          simp only [Option.some_bind] at hk
          cases hst : record.Status <;> rw [hst] at hk <;>
            simp [GetTaskStatuses.operationOf] at hk <;> subst hk <;> rfl
  · intro c keyspans k record hc hk
    refine ⟨GetTaskStatuses.statusOf keyspans, ?_, ?_, ?_⟩
    · rw [GetTaskStatuses_lookup, hc]; rfl
    · rw [statusOf_KeySpans_lookup, hk]; rfl
    · intro hst
      rw [statusOf_Operation_lookup, hk]
      rcases hst with hst | hst <;> rw [Option.some_bind, hst] <;>
        exact ⟨_, rfl, rfl⟩

/-- Witness of C4 on the example dispatcher: keyspan 3, being removed on
`capture-2`. -/
theorem GetTaskStatuses_zero_fields_witness :
    exampleDispatcher.keyspans.GetAllKeySpansGroupedByCaptures.lookup "capture-2"
      = some exampleKeySpans2 ∧
    exampleKeySpans2.lookup 3 = some { Status := .RemovingKeySpan } ∧
    ∃ status, exampleDispatcher.GetTaskStatuses.1.1.lookup "capture-2" = some status ∧
      status.KeySpans.lookup 3 = some { StartTs := 0 } ∧
      (KeySpanStatus.RemovingKeySpan = .AddingKeySpan ∨
        KeySpanStatus.RemovingKeySpan = .RemovingKeySpan →
        ∃ op, status.Operation.lookup 3 = some op ∧ op.BoundaryTs = 0) :=
  ⟨rfl, by decide,
   (GetTaskStatuses_zero_fields exampleDispatcher).2 "capture-2" exampleKeySpans2 3
     { Status := .RemovingKeySpan } rfl (by decide)⟩

/-- C5: for every scheduler state, the capture IDs of the map returned by
GetTaskPositions are the capture IDs of the capture-status table, and for each
such capture the returned CheckPointTs is its stored CheckpointTs and the
returned ResolvedTs is its stored ResolvedTs. -/
theorem GetTaskPositions_projection (s : BaseScheduleDispatcher) :
    s.GetTaskPositions.1.1.keys = s.captureStatus.keys.toFinset ∧
    ∀ (c : CaptureID) (st : CaptureStatus), s.captureStatus.lookup c = some st →
      ∃ pos, s.GetTaskPositions.1.1.lookup c = some pos ∧
        pos.CheckPointTs = st.CheckpointTs ∧ pos.ResolvedTs = st.ResolvedTs := by
  refine ⟨?_, ?_⟩
  · apply keys_eq_of_lookup
    intro c
    rw [GetTaskPositions_lookup, Option.isSome_map']
  · intro c st hc
    refine ⟨{ CheckPointTs := st.CheckpointTs, ResolvedTs := st.ResolvedTs }, ?_, rfl, rfl⟩
    rw [GetTaskPositions_lookup, hc]; rfl

/-- Witness of C5 on the example dispatcher: capture `capture-1`, stored with
checkpoint 80 and resolved timestamp 100. -/
theorem GetTaskPositions_projection_witness :
    exampleDispatcher.captureStatus.lookup "capture-1"
      = some { CheckpointTs := 80, ResolvedTs := 100, ProcessorVersion := "v1" } ∧
    ∃ pos, exampleDispatcher.GetTaskPositions.1.1.lookup "capture-1" = some pos ∧
      pos.CheckPointTs = 80 ∧ pos.ResolvedTs = 100 :=
  ⟨by decide,
   (GetTaskPositions_projection exampleDispatcher).2 "capture-1"
     { CheckpointTs := 80, ResolvedTs := 100, ProcessorVersion := "v1" } (by decide)⟩

/-- C8: for every scheduler state and every capture in the result of
GetTaskPositions, the reported CheckPointTs is less than or equal to the
reported ResolvedTs. A scheduler state is one of the data model, whose stored
capture statuses keep the watermark invariant; GetTaskPositions reports the
stored checkpoint as CheckPointTs and the stored resolved timestamp as
ResolvedTs, so the report keeps it too. -/
theorem GetTaskPositions_watermark_order (s : SchedulerState) (c : CaptureID)
    (pos : TaskPosition) (hpos : s.dispatcher.GetTaskPositions.1.1.lookup c = some pos) :
    pos.CheckPointTs ≤ pos.ResolvedTs := by
  rw [GetTaskPositions_lookup] at hpos
  cases hst : s.dispatcher.captureStatus.lookup c with
  | none => rw [hst] at hpos; cases hpos
  | some st =>
    rw [hst] at hpos
    simp only [Option.map_some', Option.some.injEq] at hpos
    subst hpos
    exact s.watermarks ⟨c, st⟩ (AList.mem_lookup_iff.mp hst)

/-- Witness of C8 on the example state: capture `capture-2`, stored with
checkpoint 100 and resolved timestamp 120, is reported as (100, 120). -/
theorem GetTaskPositions_watermark_order_witness :
    exampleState.dispatcher.captureStatus.lookup "capture-2"
      = some { CheckpointTs := 100, ResolvedTs := 120, ProcessorVersion := "v1" } ∧
    exampleState.dispatcher.GetTaskPositions.1.1.lookup "capture-2"
      = some { CheckPointTs := 100, ResolvedTs := 120 } ∧
    (100 : Ts) ≤ 120 :=
  ⟨by decide, by decide,
   GetTaskPositions_watermark_order exampleState "capture-2"
     { CheckPointTs := 100, ResolvedTs := 120 } (by decide)⟩

/-- C9: GetTaskStatuses and GetTaskPositions are read-only: after either call
the assignment table and the capture-status table of the dispatcher are the
ones before the call (and the mutex is released). -/
theorem info_provider_read_only (s : BaseScheduleDispatcher) :
    (s.GetTaskStatuses.2.keyspans = s.keyspans ∧
      s.GetTaskStatuses.2.captureStatus = s.captureStatus ∧
      s.GetTaskStatuses.2.mu = false) ∧
    (s.GetTaskPositions.2.keyspans = s.keyspans ∧
      s.GetTaskPositions.2.captureStatus = s.captureStatus ∧
      s.GetTaskPositions.2.mu = false) :=
  ⟨⟨rfl, rfl, rfl⟩, ⟨rfl, rfl, rfl⟩⟩

end scheduler

/-! ## The protocol topics and messages -/

namespace model

theorem DispatchKeySpanTopic_eq (cf : ChangeFeedID) :
    DispatchKeySpanTopic cf = "dispatch/" ++ cf := by
  apply String.ext
  simp [DispatchKeySpanTopic, fmt.Sprintf, fmt.sprintfChars]

theorem DispatchKeySpanResponseTopic_eq (cf : ChangeFeedID) :
    DispatchKeySpanResponseTopic cf = "dispatch-resp/" ++ cf := by
  apply String.ext
  simp [DispatchKeySpanResponseTopic, fmt.Sprintf, fmt.sprintfChars]

theorem AnnounceTopic_eq (cf : ChangeFeedID) :
    AnnounceTopic cf = "send-status/" ++ cf := by
  apply String.ext
  simp [AnnounceTopic, fmt.Sprintf, fmt.sprintfChars]

theorem SyncTopic_eq (cf : ChangeFeedID) :
    SyncTopic cf = "send-status-resp/" ++ cf := by
  apply String.ext
  simp [SyncTopic, fmt.Sprintf, fmt.sprintfChars]

theorem CheckpointTopic_eq (cf : ChangeFeedID) :
    CheckpointTopic cf = "checkpoint/" ++ cf := by
  apply String.ext
  simp [CheckpointTopic, fmt.Sprintf, fmt.sprintfChars]

/-- C6: for every changefeed ID, each topic function returns its fixed prefix
followed by the changefeed ID: `dispatch/`, `dispatch-resp/`, `send-status/`,
`send-status-resp/` and `checkpoint/`. -/
theorem topics_eq (cf : ChangeFeedID) :
    DispatchKeySpanTopic cf = "dispatch/" ++ cf ∧
    DispatchKeySpanResponseTopic cf = "dispatch-resp/" ++ cf ∧
    AnnounceTopic cf = "send-status/" ++ cf ∧
    SyncTopic cf = "send-status-resp/" ++ cf ∧
    CheckpointTopic cf = "checkpoint/" ++ cf :=
  ⟨DispatchKeySpanTopic_eq cf, DispatchKeySpanResponseTopic_eq cf, AnnounceTopic_eq cf,
   SyncTopic_eq cf, CheckpointTopic_eq cf⟩

/-- C10, as stated, fails: the member names of the tagged text form of a
dispatch message are not the Go field names `OwnerRev`, `ID`, `IsDelete`,
`Start`, `End`. -/
theorem DispatchKeySpanMessage_memberNames_counterexample :
    exampleDispatch.memberNames
      ≠ ["OwnerRev", "ID", "IsDelete", "Start", "End"] := by
  decide

/-- C10, amended: the dispatch message, with fields OwnerRev, ID, IsDelete,
Start and End, is encoded as tagged text whose member names are the names of
the struct tags, `owner-rev`, `id`, `is-delete`, `start` and `end`, one member
per field in declaration order. -/
theorem DispatchKeySpanMessage_memberNames (m : DispatchKeySpanMessage) :
    m.memberNames = ["owner-rev", "id", "is-delete", "start", "end"] ∧
    m.members =
      [("owner-rev", .number m.OwnerRev), ("id", .number m.ID),
       ("is-delete", .boolean m.IsDelete), ("start", .bytes m.Start),
       ("end", .bytes m.End)] ∧
    DispatchKeySpanMessage.fieldTags.map Prod.fst
      = ["OwnerRev", "ID", "IsDelete", "Start", "End"] :=
  ⟨rfl, rfl, rfl⟩

end model

/-! ## Errors, empty tables and orders of visit -/

namespace model

/-- C11: a failure of the MsgPack encoder or decoder comes back as an error:
when the encoder fails, Marshal returns nil bytes and a non-nil error (the
encoder's, traced); when it succeeds, Marshal returns the encoder's bytes and
a nil error; and Unmarshal returns a non-nil error if and only if the decoder
fails on the given bytes. -/
theorem SyncMessage_codec_errors (msgpack : MsgPack) (m : SyncMessage) (data : List UInt8) :
    (∀ err, msgpack.Marshal m = .error err →
      (m.Marshal msgpack).1 = none ∧ (m.Marshal msgpack).2 = some (errorsTrace err) ∧
        (m.Marshal msgpack).2 ≠ none) ∧
    (∀ raw, msgpack.Marshal m = .ok raw →
      (m.Marshal msgpack).1 = some raw ∧ (m.Marshal msgpack).2 = none) ∧
    ((m.Unmarshal msgpack data).2 ≠ none ↔ (msgpack.Unmarshal data m).2 ≠ none) := by
  refine ⟨?_, ?_, Iff.rfl⟩
  · intro err h
    simp [SyncMessage.Marshal, h]
  · intro raw h
    simp [SyncMessage.Marshal, h]

/-- Witness of C11 on the stand-in codec: encoding the zero message fails,
encoding the example message gives two bytes. -/
theorem SyncMessage_codec_errors_witness :
    exampleCodec.Marshal zeroSync = .error (.msg "no version") ∧
    ((zeroSync.Marshal exampleCodec).1 = none ∧
      (zeroSync.Marshal exampleCodec).2 = some (errorsTrace (.msg "no version")) ∧
      (zeroSync.Marshal exampleCodec).2 ≠ none) ∧
    exampleCodec.Marshal exampleSync = .ok [1, 1] ∧
    ((exampleSync.Marshal exampleCodec).1 = some [1, 1] ∧
      (exampleSync.Marshal exampleCodec).2 = none) :=
  ⟨rfl, (SyncMessage_codec_errors exampleCodec zeroSync []).1 (.msg "no version") rfl,
   rfl, (SyncMessage_codec_errors exampleCodec exampleSync []).2.1 [1, 1] rfl⟩

end model

namespace model

/-- C14: topics of different kinds never collide: for all changefeed IDs cf1
and cf2, the topics that two different topic functions return are different
strings (all ten pairs of the five functions). -/
theorem topics_of_different_kinds_differ (cf1 cf2 : ChangeFeedID) :
    DispatchKeySpanTopic cf1 ≠ DispatchKeySpanResponseTopic cf2 ∧
    DispatchKeySpanTopic cf1 ≠ AnnounceTopic cf2 ∧
    DispatchKeySpanTopic cf1 ≠ SyncTopic cf2 ∧
    DispatchKeySpanTopic cf1 ≠ CheckpointTopic cf2 ∧
    DispatchKeySpanResponseTopic cf1 ≠ AnnounceTopic cf2 ∧
    DispatchKeySpanResponseTopic cf1 ≠ SyncTopic cf2 ∧
    DispatchKeySpanResponseTopic cf1 ≠ CheckpointTopic cf2 ∧
    AnnounceTopic cf1 ≠ SyncTopic cf2 ∧
    AnnounceTopic cf1 ≠ CheckpointTopic cf2 ∧
    SyncTopic cf1 ≠ CheckpointTopic cf2 := by
  simp only [DispatchKeySpanTopic_eq, DispatchKeySpanResponseTopic_eq, AnnounceTopic_eq,
    SyncTopic_eq, CheckpointTopic_eq]
  refine ⟨?_, ?_, ?_, ?_, ?_, ?_, ?_, ?_, ?_, ?_⟩ <;>
    · intro h
      have h2 := congrArg String.data h
      simp [String.data_append] at h2

/-- A fixed text in front of two strings gives the same string only for the
same two strings. -/
theorem append_left_cancel_string (p a b : String) (h : p ++ a = p ++ b) : a = b := by
  have h2 := congrArg String.data h
  simp only [String.data_append, List.append_cancel_left_eq] at h2
  exact String.ext h2

/-- C15: each of the five topic functions is injective in the changefeed ID:
it returns the same topic for cf1 and cf2 only if cf1 = cf2. -/
theorem topics_injective (cf1 cf2 : ChangeFeedID) :
    (DispatchKeySpanTopic cf1 = DispatchKeySpanTopic cf2 → cf1 = cf2) ∧
    (DispatchKeySpanResponseTopic cf1 = DispatchKeySpanResponseTopic cf2 → cf1 = cf2) ∧
    (AnnounceTopic cf1 = AnnounceTopic cf2 → cf1 = cf2) ∧
    (SyncTopic cf1 = SyncTopic cf2 → cf1 = cf2) ∧
    (CheckpointTopic cf1 = CheckpointTopic cf2 → cf1 = cf2) := by
  simp only [DispatchKeySpanTopic_eq, DispatchKeySpanResponseTopic_eq, AnnounceTopic_eq,
    SyncTopic_eq, CheckpointTopic_eq]
  exact ⟨append_left_cancel_string _ _ _, append_left_cancel_string _ _ _,
    append_left_cancel_string _ _ _, append_left_cancel_string _ _ _,
    append_left_cancel_string _ _ _⟩

/-- Witness of C15 on the changefeed ID `cf/1-a`, which holds a slash and a
hyphen. -/
theorem topics_injective_witness :
    DispatchKeySpanTopic "cf/1-a" = DispatchKeySpanTopic "cf/1-a" ∧
    DispatchKeySpanTopic "cf/1-a" = "dispatch/cf/1-a" ∧
    ("cf/1-a" : ChangeFeedID) = "cf/1-a" ∧
    DispatchKeySpanTopic "cf/1-a" ≠ DispatchKeySpanTopic "cf/1-b" :=
  ⟨rfl, by decide, (topics_injective "cf/1-a" "cf/1-a").1 rfl,
   fun h => absurd ((topics_injective "cf/1-a" "cf/1-b").1 h) (by decide)⟩

end model

namespace scheduler

open model util

/-- C13: for every scheduler state GetTaskStatuses and GetTaskPositions return
a nil error; on an empty assignment table GetTaskStatuses returns an empty map,
on an empty capture-status table GetTaskPositions returns an empty map, and a
capture that holds no keyspan gets a task status with two empty maps. -/
theorem info_provider_nil_error (s : BaseScheduleDispatcher) :
    s.GetTaskStatuses.1.2 = none ∧ s.GetTaskPositions.1.2 = none ∧
    (s.keyspans.GetAllKeySpansGroupedByCaptures = ∅ → s.GetTaskStatuses.1.1 = ∅) ∧
    (s.captureStatus = ∅ → s.GetTaskPositions.1.1 = ∅) ∧
    (∀ c : CaptureID, s.keyspans.GetAllKeySpansGroupedByCaptures.lookup c = some ∅ →
      s.GetTaskStatuses.1.1.lookup c = some { KeySpans := ∅, Operation := ∅ }) := by
  refine ⟨rfl, rfl, ?_, ?_, ?_⟩
  · intro h
    apply Finmap.ext_lookup
    intro c
    rw [GetTaskStatuses_lookup, h]
    rfl
  · intro h
    apply Finmap.ext_lookup
    intro c
    rw [GetTaskPositions_lookup, h]
    rfl
  · intro c h
    rw [GetTaskStatuses_lookup, h]
    rfl

/-- Witness of C13: the dispatcher with two empty tables, and the dispatcher
whose capture `capture-1` holds no keyspan. -/
theorem info_provider_nil_error_witness :
    emptyDispatcher.GetTaskStatuses.1 = (∅, none) ∧
    emptyDispatcher.GetTaskPositions.1 = (∅, none) ∧
    idleDispatcher.GetTaskStatuses.1.2 = none ∧
    idleDispatcher.GetTaskStatuses.1.1.lookup "capture-1"
      = some { KeySpans := ∅, Operation := ∅ } :=
  ⟨Prod.ext ((info_provider_nil_error emptyDispatcher).2.2.1 rfl)
      (info_provider_nil_error emptyDispatcher).1,
   Prod.ext ((info_provider_nil_error emptyDispatcher).2.2.2.1 rfl)
      (info_provider_nil_error emptyDispatcher).2.1,
   (info_provider_nil_error idleDispatcher).1,
   (info_provider_nil_error idleDispatcher).2.2.2.2 "capture-1" rfl⟩

/-- C16: for every scheduler state and every capture in the result of
GetTaskStatuses, the keys of the Operation map are among the keys of the
KeySpans map: every operation in flight refers to a keyspan listed for the
capture, a keyspan being removed included. -/
theorem GetTaskStatuses_operation_subset (s : BaseScheduleDispatcher) (c : CaptureID)
    (status : TaskStatus) (hc : s.GetTaskStatuses.1.1.lookup c = some status) :
    status.Operation.keys ⊆ status.KeySpans.keys := by
  rw [GetTaskStatuses_lookup] at hc
  cases hg : s.keyspans.GetAllKeySpansGroupedByCaptures.lookup c with
  | none => rw [hg] at hc; cases hc
  | some keyspans =>
    rw [hg] at hc
    simp only [Option.map_some', Option.some.injEq] at hc
    subst hc
    intro k hk
    rw [Finmap.mem_keys, ← Finmap.lookup_isSome, statusOf_Operation_lookup] at hk
    rw [Finmap.mem_keys, ← Finmap.lookup_isSome, statusOf_KeySpans_lookup]
    cases hr : keyspans.lookup k with
    | none => rw [hr] at hk; cases hk
    | some record => rfl

/-- Witness of C16 on the example dispatcher: capture `capture-2`, whose
keyspan 3 is being removed and has an operation in flight. -/
theorem GetTaskStatuses_operation_subset_witness :
    exampleDispatcher.GetTaskStatuses.1.1.lookup "capture-2" = some exampleStatus2 ∧
    3 ∈ exampleStatus2.Operation ∧
    exampleStatus2.Operation.keys ⊆ exampleStatus2.KeySpans.keys :=
  ⟨rfl, by decide,
   GetTaskStatuses_operation_subset exampleDispatcher "capture-2" exampleStatus2 rfl⟩

end scheduler

namespace scheduler

open model util

/-- Two task statuses with the same two maps are the same. -/
theorem TaskStatus_eq_of_maps (a b : TaskStatus) (h1 : a.KeySpans = b.KeySpans)
    (h2 : a.Operation = b.Operation) : a = b := by
  cases a
  cases b
  simp only [TaskStatus.mk.injEq]
  exact ⟨h1, h2⟩

/-- The task status built for a capture does not depend on the order in which
its keyspans are visited. -/
theorem statusOf_perm (ks1 ks2 : RangedMap KeySpanID KeySpanRecord)
    (h : ks1.entries.Perm ks2.entries) :
    GetTaskStatuses.statusOf ks1 = GetTaskStatuses.statusOf ks2 := by
  apply TaskStatus_eq_of_maps
  · apply Finmap.ext_lookup
    intro k
    rw [statusOf_KeySpans_lookup, statusOf_KeySpans_lookup, AList.perm_lookup h]
  · apply Finmap.ext_lookup
    intro k
    rw [statusOf_Operation_lookup, statusOf_Operation_lookup, AList.perm_lookup h]

/-- C17: the results of GetTaskStatuses and GetTaskPositions are determined by
the contents of the tables alone: two visits of the same assignment table, the
captures in any two orders and the keyspans of each capture in any two orders,
give equal maps of task statuses, and two visits of the same capture-status
table give equal maps of task positions. -/
theorem info_provider_order_independent (s1 s2 : BaseScheduleDispatcher) :
    (SameGrouping s1.keyspans.GetAllKeySpansGroupedByCaptures
        s2.keyspans.GetAllKeySpansGroupedByCaptures →
      s1.GetTaskStatuses.1 = s2.GetTaskStatuses.1) ∧
    (SameCaptureStatus s1.captureStatus s2.captureStatus →
      s1.GetTaskPositions.1 = s2.GetTaskPositions.1) := by
  refine ⟨?_, ?_⟩
  · intro h
    obtain ⟨hkeys, hin⟩ := h
    refine Prod.ext ?_ rfl
    apply Finmap.ext_lookup
    intro c
    rw [GetTaskStatuses_lookup, GetTaskStatuses_lookup]
    cases h1 : s1.keyspans.GetAllKeySpansGroupedByCaptures.lookup c with
    | none =>
      have hn1 : c ∉ s1.keyspans.GetAllKeySpansGroupedByCaptures.keys :=
        fun hm => AList.lookup_eq_none.mp h1 (AList.mem_keys.mpr hm)
      have hn2 : c ∉ s2.keyspans.GetAllKeySpansGroupedByCaptures :=
        fun hm => hn1 (hkeys.mem_iff.mpr (AList.mem_keys.mp hm))
      rw [AList.lookup_eq_none.mpr hn2]
    | some ks1 =>
      have hm1 : c ∈ s1.keyspans.GetAllKeySpansGroupedByCaptures.keys :=
        AList.mem_keys.mp (AList.lookup_isSome.mp (by rw [h1]; rfl))
      have hm2 : c ∈ s2.keyspans.GetAllKeySpansGroupedByCaptures :=
        AList.mem_keys.mpr (hkeys.mem_iff.mp hm1)
      cases h2 : s2.keyspans.GetAllKeySpansGroupedByCaptures.lookup c with
      | none => exact absurd hm2 (AList.lookup_eq_none.mp h2)
      | some ks2 =>
        have hp : ks1.entries.Perm ks2.entries :=
          hin c hm1 ks1 (by rw [h1]; rfl) ks2 (by rw [h2]; rfl)
        simp only [Option.map_some', statusOf_perm ks1 ks2 hp]
  · intro h
    refine Prod.ext ?_ rfl
    apply Finmap.ext_lookup
    intro c
    rw [GetTaskPositions_lookup, GetTaskPositions_lookup, AList.perm_lookup h]

/-- Witness of C17: the example dispatcher and the same two tables visited in
another order, with the mutex in another state. -/
theorem info_provider_order_independent_witness :
    SameGrouping exampleDispatcher.keyspans.GetAllKeySpansGroupedByCaptures
      exampleDispatcherReordered.keyspans.GetAllKeySpansGroupedByCaptures ∧
    SameCaptureStatus exampleDispatcher.captureStatus exampleDispatcherReordered.captureStatus ∧
    exampleDispatcher.keyspans.GetAllKeySpansGroupedByCaptures.entries
      ≠ exampleDispatcherReordered.keyspans.GetAllKeySpansGroupedByCaptures.entries ∧
    exampleDispatcher.GetTaskStatuses.1 = exampleDispatcherReordered.GetTaskStatuses.1 ∧
    exampleDispatcher.GetTaskPositions.1 = exampleDispatcherReordered.GetTaskPositions.1 :=
  ⟨by decide, by decide, by decide,
   (info_provider_order_independent exampleDispatcher exampleDispatcherReordered).1 (by decide),
   (info_provider_order_independent exampleDispatcher exampleDispatcherReordered).2 (by decide)⟩

end scheduler
